import Mathlib

/-!
Verification of the pydistcp command-line front end (`pydistcp/__main__.py`)
and of the spec-level model of the distributed transfer engine it drives.

The first part embeds `main` from `pydistcp/__main__.py` as a pure function
from the parsed arguments (plus the `sys.stderr.isatty()` environment bit)
to an explicit record of everything `main` does: which clients are obtained
from the configuration, which transfer entry point is invoked with which
arguments, what is printed, and the exit code.

The second part models, from the specification, the engine components whose
code lives outside this tree (the `WebHDFSDistClient` engine): the
ChecksumGate decision, the engine-boundary chunk-size validation, and the
ChunkScheduler `split` function.
-/

namespace Pydistcp

/-- The command line as parsed by docopt, before defaulting: `none` means the
corresponding option flag was absent on the command line; boolean flags are
`false` when absent (docopt semantics). -/
structure CmdLine where
  src : String
  dest : String
  srcPath : String
  destPath : String
  threads : Option Nat
  partSize : Option Nat
  bufferSize : Option Nat
  includePattern : Option String
  minSize : Option Nat
  force : Bool
  silent : Bool
  noChecksum : Bool
  filesOnly : Bool
  preserve : Bool
  verbose : Nat
  conf : Option String
deriving DecidableEq

/-- The arguments dictionary `args` as seen by `main` after docopt has applied
the `[default: ...]` annotations of the usage string. -/
structure Args where
  src : String
  dest : String
  srcPath : String
  destPath : String
  threads : Nat
  partSize : Nat
  bufferSize : Nat
  includePattern : String
  minSize : Nat
  force : Bool
  silent : Bool
  noChecksum : Bool
  filesOnly : Bool
  preserve : Bool
  verbose : Nat
  conf : Option String
deriving DecidableEq

/-- docopt defaulting, from the usage string of `__main__.py`:
`--threads [default: 0]`, `--part-size [default: 65536]`,
`--buffer-size [default: 65536]`, `--include-pattern [default: *]`,
`--min-size [default: 0]`. -/
def applyDefaults (c : CmdLine) : Args where
  src := c.src
  dest := c.dest
  srcPath := c.srcPath
  destPath := c.destPath
  threads := c.threads.getD 0
  partSize := c.partSize.getD 65536
  bufferSize := c.bufferSize.getD 65536
  includePattern := c.includePattern.getD "*"
  minSize := c.minSize.getD 0
  force := c.force
  silent := c.silent
  noChecksum := c.noChecksum
  filesOnly := c.filesOnly
  preserve := c.preserve
  verbose := c.verbose
  conf := c.conf

/-- The local variables bound at the top of `main` (lines 106-116 of
`__main__.py`). -/
structure Locals where
  nThreads : Nat
  partSize : Nat
  bufferSize : Nat
  includePattern : String
  minSize : Nat
  force : Bool
  silent : Bool
  checksum : Bool
  filesOnly : Bool
  srcPath : String
  destPath : String
deriving DecidableEq

/-- Lines 106-116 of `__main__.py`: `checksum = False if args[--no-checksum]
else True`, `files_only = True if args[--files-only] else False`, the rest
bound directly. -/
def mainLocals (a : Args) : Locals where
  nThreads := a.threads
  partSize := a.partSize
  bufferSize := a.bufferSize
  includePattern := a.includePattern
  minSize := a.minSize
  force := a.force
  silent := a.silent
  checksum := if a.noChecksum then false else true
  filesOnly := if a.filesOnly then true else false
  srcPath := a.srcPath
  destPath := a.destPath

/-- The `_Progress` object constructed in each branch of `main`:
`_Progress.from_hdfs(client, path)` (the client recorded by its namenode
alias) or `_Progress.from_local(path, include_pattern, min_size)`. -/
inductive Progress where
  | fromHdfs (clientAlias : String) (path : String)
  | fromLocal (path : String) (includePattern : String) (minSize : Nat)
deriving DecidableEq

/-- The aggregate report a transfer entry point returns (spec section 3,
CopyReport). -/
structure CopyReport where
  copied : Nat
  skipped : Nat
  failed : List (String × String)
  bytesTransferred : Nat
  elapsed : Nat
deriving DecidableEq

/-- The arguments `main` passes to `client.copy` (lines 128-138), other than
the progress object. -/
structure CopyArgsCore where
  srcPath : String
  destPath : String
  overwrite : Bool
  checksum : Bool
  chunkSize : Nat
  bufferSize : Nat
  nThreads : Nat
  preserve : Bool
deriving DecidableEq

/-- The arguments `main` passes to `client.upload` (lines 153-165), other
than the progress object. -/
structure UploadArgsCore where
  destPath : String
  srcPath : String
  overwrite : Bool
  checksum : Bool
  chunkSize : Nat
  nThreads : Nat
  includePattern : String
  filesOnly : Bool
  minSize : Nat
  preserve : Bool
deriving DecidableEq

/-- The arguments `main` passes to `client.download` (lines 179-187), other
than the progress object. -/
structure DownloadArgsCore where
  srcPath : String
  destPath : String
  overwrite : Bool
  chunkSize : Nat
  nThreads : Nat
  preserve : Bool
deriving DecidableEq

/-- The full argument list of the `client.copy` call, progress included. -/
structure CopyCall extends CopyArgsCore where
  progress : Option Progress
deriving DecidableEq

/-- The full argument list of the `client.upload` call, progress included. -/
structure UploadCall extends UploadArgsCore where
  progress : Option Progress
deriving DecidableEq

/-- The full argument list of the `client.download` call, progress
included. -/
structure DownloadCall extends DownloadArgsCore where
  progress : Option Progress
deriving DecidableEq

/-- Modelled from the spec: the transfer engine (`WebHDFSDistClient` and the
local-endpoint client, in `pydistcp/distclient.py`, absent from this tree).
Per the spec (section 4.6) the ProgressTracker is purely observational and
decoupled from correctness, so each entry point's report is modelled as a
function of its arguments other than the progress sink. -/
structure Engine where
  copy : CopyArgsCore → CopyReport
  upload : UploadArgsCore → CopyReport
  download : DownloadArgsCore → CopyReport

/-- Which transfer entry point `main` invoked, with its full argument
record. -/
inductive Invocation where
  | copyCall (c : CopyCall)
  | uploadCall (u : UploadCall)
  | downloadCall (d : DownloadCall)
deriving DecidableEq

/-- The progress argument of an invocation. -/
def Invocation.progressOf : Invocation → Option Progress
  | .copyCall c => c.progress
  | .uploadCall u => u.progress
  | .downloadCall d => d.progress

/-- The invocation with its progress argument replaced by `None`. -/
def Invocation.stripProgress : Invocation → Invocation
  | .copyCall c => .copyCall { c with progress := none }
  | .uploadCall u => .uploadCall { u with progress := none }
  | .downloadCall d => .downloadCall { d with progress := none }

/-- A line printed to stdout by `main`. -/
inductive OutputLine where
  | jobStatusHeader
  | statusJson (r : CopyReport)
  | localToLocalMsg
deriving DecidableEq

/-- Everything one run of `main` does, made explicit: the aliases passed to
`config.get_client` in order, whether a `WebHDFSDistClient` was constructed,
the transfer entry point invoked (if any) with its arguments, the status
value `main` holds for printing, the stdout lines, and the exit code. -/
structure MainResult where
  clients : List String
  distClient : Bool
  invocation : Option Invocation
  status : Option CopyReport
  printed : List OutputLine
  exitCode : Nat
deriving DecidableEq

/-- The progress argument of the run's invocation, `none` when no entry point
was invoked. -/
def MainResult.progressArg (r : MainResult) : Option Progress :=
  match r.invocation with
  | some i => i.progressOf
  | none => none

/-- The copy-call argument record of the run (progress aside), when the run
invoked `client.copy`. -/
def MainResult.copyArgs (r : MainResult) : Option CopyArgsCore :=
  match r.invocation with
  | some (Invocation.copyCall c) => some c.toCopyArgsCore
  | _ => none

/-- The upload-call argument record of the run (progress aside), when the run
invoked `client.upload`. -/
def MainResult.uploadArgs (r : MainResult) : Option UploadArgsCore :=
  match r.invocation with
  | some (Invocation.uploadCall u) => some u.toUploadArgsCore
  | _ => none

/-- The download-call argument record of the run (progress aside), when the
run invoked `client.download`. -/
def MainResult.downloadArgs (r : MainResult) : Option DownloadArgsCore :=
  match r.invocation with
  | some (Invocation.downloadCall d) => some d.toDownloadArgsCore
  | _ => none

/-- The body of `main` (lines 106-192 of `__main__.py`), as a pure function
of the defaulted arguments, the engine behind the client objects, and the
`sys.stderr.isatty()` environment bit. -/
def mainRun (e : Engine) (a : Args) (isatty : Bool) : MainResult :=
  let L := mainLocals a
  if a.src != "local" && a.dest != "local" then
    let progress : Option Progress :=
      if isatty && !L.silent then some (Progress.fromHdfs a.src L.srcPath) else none
    let core : CopyArgsCore :=
      { srcPath := L.srcPath, destPath := L.destPath, overwrite := L.force,
        checksum := L.checksum, chunkSize := L.partSize,
        bufferSize := L.bufferSize, nThreads := L.nThreads,
        preserve := if a.preserve then true else false }
    let status := e.copy core
    { clients := [a.src, a.dest], distClient := true,
      invocation := some (Invocation.copyCall { toCopyArgsCore := core, progress := progress }),
      status := some status,
      printed := [OutputLine.jobStatusHeader, OutputLine.statusJson status],
      exitCode := 0 }
  else if a.src == "local" && a.dest != "local" then
    let progress : Option Progress :=
      if isatty && !L.silent then
        some (Progress.fromLocal L.srcPath L.includePattern L.minSize)
      else none
    let core : UploadArgsCore :=
      { destPath := L.destPath, srcPath := L.srcPath, overwrite := L.force,
        checksum := L.checksum, chunkSize := L.partSize,
        nThreads := L.nThreads, includePattern := L.includePattern,
        filesOnly := L.filesOnly, minSize := L.minSize,
        preserve := if a.preserve then true else false }
    let status := e.upload core
    { clients := [a.dest], distClient := false,
      invocation := some (Invocation.uploadCall { toUploadArgsCore := core, progress := progress }),
      status := some status,
      printed := [OutputLine.jobStatusHeader, OutputLine.statusJson status],
      exitCode := 0 }
  else if a.src != "local" && a.dest == "local" then
    let progress : Option Progress :=
      if isatty && !L.silent then some (Progress.fromHdfs a.src L.srcPath) else none
    let core : DownloadArgsCore :=
      { srcPath := L.srcPath, destPath := L.destPath, overwrite := L.force,
        chunkSize := L.partSize, nThreads := L.nThreads,
        preserve := if a.preserve then true else false }
    { clients := [a.src], distClient := false,
      invocation := some (Invocation.downloadCall { toDownloadArgsCore := core, progress := progress }),
      status := none,
      printed := [],
      exitCode := 0 }
  else
    { clients := [], distClient := false, invocation := none, status := none,
      printed := [OutputLine.localToLocalMsg], exitCode := 1 }

/-- A fixed report, used to instantiate the engine at concrete inputs. -/
def defaultReport : CopyReport :=
  { copied := 0, skipped := 0, failed := [], bytesTransferred := 0, elapsed := 0 }

/-- A concrete engine instance, used to evaluate `mainRun` at concrete
inputs. -/
def defaultEngine : Engine where
  copy := fun _ => defaultReport
  upload := fun _ => defaultReport
  download := fun _ => defaultReport

/-! ### Spec-modelled engine components (code absent from this tree) -/

/-- Repeated halving with explicit fuel: `true` exactly when the second
argument is a power of two reachable within `fuel` halvings. -/
def powCheck : Nat → Nat → Bool
  | 0, _ => false
  | fuel + 1, n =>
    if n == 1 then true
    else if n == 0 || n % 2 == 1 then false
    else powCheck fuel (n / 2)

/-- Whether a natural number is a positive power of two (`n` halvings of
fuel always suffice). -/
def isPowerOfTwo (n : Nat) : Bool :=
  powCheck n n

/-- A contiguous byte range of a file (spec section 3, ChunkRange). -/
structure ChunkRange where
  offset : Nat
  length : Nat
deriving DecidableEq

/-- Modelled from the spec: the ChunkScheduler recursion step (sections 4.4
and 3; `pydistcp/distclient.py` is absent from this tree). Starting at
`offset`, emit chunks of exactly `chunkSize` bytes until at most `chunkSize`
bytes remain, then one final (possibly shorter, possibly zero-length) chunk;
a zero-length file yields exactly one zero-length chunk. The explicit fuel
only makes the recursion structural: `size` units of fuel always suffice for
a positive chunk size, and the `chunkSize = 0` guard is outside the
validated domain (the engine boundary rejects chunk sizes that are not
positive powers of two). -/
def splitFuel : Nat → Nat → Nat → Nat → List ChunkRange
  | 0, _, offset, size => [⟨offset, size⟩]
  | fuel + 1, chunkSize, offset, size =>
    if size ≤ chunkSize ∨ chunkSize = 0 then [⟨offset, size⟩]
    else ⟨offset, chunkSize⟩ ::
      splitFuel fuel chunkSize (offset + chunkSize) (size - chunkSize)

/-- Modelled from the spec: `split(size, chunkSize)` of the ChunkScheduler
(section 4.4). -/
def split (size chunkSize : Nat) : List ChunkRange :=
  splitFuel size chunkSize 0 size

/-- Whether a list of chunk ranges is contiguous starting at `off`: each
chunk begins exactly where the previous one ended. -/
def contiguousFrom : Nat → List ChunkRange → Bool
  | _, [] => true
  | off, c :: rest => c.offset == off && contiguousFrom (off + c.length) rest

/-- The fatal configuration error of the engine boundary (spec section 7). -/
inductive EngineError where
  | invalidConfigurationError
deriving DecidableEq

/-- Modelled from the spec: the engine boundary (sections 4.4 and 7;
`pydistcp/distclient.py` is absent from this tree). The chunk size is
validated once at startup, before any task is planned: a chunk size that is
not a positive power of two yields `InvalidConfigurationError` with no task
planned, whatever the discovered files are; otherwise each file's byte range
is split into its chunk list. -/
def engineStart (chunkSize : Nat) (fileSizes : List Nat) :
    Except EngineError (List (List ChunkRange)) :=
  if isPowerOfTwo chunkSize then
    Except.ok (fileSizes.map (fun s => split s chunkSize))
  else
    Except.error EngineError.invalidConfigurationError

/-- The outcome of the ChecksumGate for one planned file task (spec
section 4.3). -/
inductive GateDecision where
  | skipped
  | proceed
  | overwriteConflict
deriving DecidableEq

/-- Byte-exact equality of two fetched checksums; a missing or
type-incompatible checksum (`none`) is treated as "differs" (spec
section 4.3). -/
def checksumsMatch : Option (List Nat) → Option (List Nat) → Bool
  | some a, some b => a == b
  | _, _ => false

namespace ChecksumGate

/-- Modelled from the spec: `ChecksumGate.decide` (section 4.3;
`pydistcp/distclient.py` is absent from this tree). If the destination does
not exist: Proceed. If it exists and checksum verification is enabled:
Skipped on byte-exact checksum equality, else Proceed exactly when overwrite
is set, else OverwriteConflictError. If it exists and checksum verification
is disabled: Proceed exactly when overwrite is set, else
OverwriteConflictError. -/
def decide (destExists : Bool) (srcChecksum destChecksum : Option (List Nat))
    (checksumEnabled overwrite : Bool) : GateDecision :=
  if !destExists then GateDecision.proceed
  else if checksumEnabled then
    if checksumsMatch srcChecksum destChecksum then GateDecision.skipped
    else if overwrite then GateDecision.proceed
    else GateDecision.overwriteConflict
  else if overwrite then GateDecision.proceed
  else GateDecision.overwriteConflict

end ChecksumGate

/-! ### Claims -/

/-- Claim C1: exactly one entry point is selected by the locality of the two
endpoints: `copy` when both `--src` and `--dest` are not local, `upload` when
the source is local and the destination is not, `download` when the source is
not local and the destination is, and no transfer entry point when both are
local. -/
theorem claim_C1 (e : Engine) (a : Args) (tty : Bool) :
    (a.src ≠ "local" → a.dest ≠ "local" →
      ∃ c, (mainRun e a tty).invocation = some (Invocation.copyCall c)) ∧
    (a.src = "local" → a.dest ≠ "local" →
      ∃ u, (mainRun e a tty).invocation = some (Invocation.uploadCall u)) ∧
    (a.src ≠ "local" → a.dest = "local" →
      ∃ d, (mainRun e a tty).invocation = some (Invocation.downloadCall d)) ∧
    (a.src = "local" → a.dest = "local" →
      (mainRun e a tty).invocation = none) := by
  refine ⟨?_, ?_, ?_, ?_⟩ <;> intro h1 h2 <;>
    simp [mainRun, h1, h2]

/-- A concrete remote-to-remote invocation, exercising `claim_C1`. -/
theorem claim_C1_witness :
    ∃ c, (mainRun defaultEngine
      { src := "prod", dest := "preprod", srcPath := "/tmp/src",
        destPath := "/tmp/dest", threads := 0, partSize := 65536,
        bufferSize := 65536, includePattern := "*", minSize := 0,
        force := false, silent := false, noChecksum := false,
        filesOnly := false, preserve := false, verbose := 0,
        conf := none } true).invocation = some (Invocation.copyCall c) :=
  (claim_C1 defaultEngine
    { src := "prod", dest := "preprod", srcPath := "/tmp/src",
      destPath := "/tmp/dest", threads := 0, partSize := 65536,
      bufferSize := 65536, includePattern := "*", minSize := 0,
      force := false, silent := false, noChecksum := false,
      filesOnly := false, preserve := false, verbose := 0,
      conf := none } true).1 (by decide) (by decide)

/-- Claim C2: a local-to-local invocation obtains no client from the
configuration, constructs no dist client, invokes no transfer entry point,
and exits with status 1. -/
theorem claim_C2 (e : Engine) (a : Args) (tty : Bool)
    (h1 : a.src = "local") (h2 : a.dest = "local") :
    (mainRun e a tty).clients = [] ∧
    (mainRun e a tty).distClient = false ∧
    (mainRun e a tty).invocation = none ∧
    (mainRun e a tty).printed = [OutputLine.localToLocalMsg] ∧
    (mainRun e a tty).exitCode = 1 := by
  simp [mainRun, h1, h2]

/-- A concrete local-to-local invocation, exercising `claim_C2`. -/
theorem claim_C2_witness :
    (mainRun defaultEngine
      { src := "local", dest := "local", srcPath := "/a", destPath := "/b",
        threads := 0, partSize := 65536, bufferSize := 65536,
        includePattern := "*", minSize := 0, force := false, silent := false,
        noChecksum := false, filesOnly := false, preserve := false,
        verbose := 0, conf := none } true).clients = [] ∧
    (mainRun defaultEngine
      { src := "local", dest := "local", srcPath := "/a", destPath := "/b",
        threads := 0, partSize := 65536, bufferSize := 65536,
        includePattern := "*", minSize := 0, force := false, silent := false,
        noChecksum := false, filesOnly := false, preserve := false,
        verbose := 0, conf := none } true).distClient = false ∧
    (mainRun defaultEngine
      { src := "local", dest := "local", srcPath := "/a", destPath := "/b",
        threads := 0, partSize := 65536, bufferSize := 65536,
        includePattern := "*", minSize := 0, force := false, silent := false,
        noChecksum := false, filesOnly := false, preserve := false,
        verbose := 0, conf := none } true).invocation = none ∧
    (mainRun defaultEngine
      { src := "local", dest := "local", srcPath := "/a", destPath := "/b",
        threads := 0, partSize := 65536, bufferSize := 65536,
        includePattern := "*", minSize := 0, force := false, silent := false,
        noChecksum := false, filesOnly := false, preserve := false,
        verbose := 0, conf := none } true).printed = [OutputLine.localToLocalMsg] ∧
    (mainRun defaultEngine
      { src := "local", dest := "local", srcPath := "/a", destPath := "/b",
        threads := 0, partSize := 65536, bufferSize := 65536,
        includePattern := "*", minSize := 0, force := false, silent := false,
        noChecksum := false, filesOnly := false, preserve := false,
        verbose := 0, conf := none } true).exitCode = 1 :=
  claim_C2 defaultEngine
    { src := "local", dest := "local", srcPath := "/a", destPath := "/b",
      threads := 0, partSize := 65536, bufferSize := 65536,
      includePattern := "*", minSize := 0, force := false, silent := false,
      noChecksum := false, filesOnly := false, preserve := false,
      verbose := 0, conf := none } true rfl rfl

/-- Claim C9: with `--silent` set, the progress argument passed to whichever
of copy, upload or download is invoked is `None`. -/
theorem claim_C9 (e : Engine) (a : Args) (tty : Bool) (h : a.silent = true) :
    (mainRun e a tty).progressArg = none := by
  by_cases h1 : a.src = "local" <;> by_cases h2 : a.dest = "local" <;>
    simp [mainRun, MainResult.progressArg, Invocation.progressOf, mainLocals,
      h, h1, h2]

/-- A concrete silent invocation, exercising `claim_C9`. -/
theorem claim_C9_witness :
    (mainRun defaultEngine
      { src := "prod", dest := "local", srcPath := "/a", destPath := "/b",
        threads := 0, partSize := 65536, bufferSize := 65536,
        includePattern := "*", minSize := 0, force := false, silent := true,
        noChecksum := false, filesOnly := false, preserve := false,
        verbose := 0, conf := none } true).progressArg = none :=
  claim_C9 defaultEngine
    { src := "prod", dest := "local", srcPath := "/a", destPath := "/b",
      threads := 0, partSize := 65536, bufferSize := 65536,
      includePattern := "*", minSize := 0, force := false, silent := true,
      noChecksum := false, filesOnly := false, preserve := false,
      verbose := 0, conf := none } true rfl

/-- Claim C5: when the destination exists, checksum verification is disabled
and overwrite is false, the gate decision is OverwriteConflictError — neither
Skipped nor Proceed, whatever the two checksums are. -/
theorem claim_C5 (srcChecksum destChecksum : Option (List Nat)) :
    ChecksumGate.decide true srcChecksum destChecksum false false =
      GateDecision.overwriteConflict ∧
    ChecksumGate.decide true srcChecksum destChecksum false false ≠
      GateDecision.skipped ∧
    ChecksumGate.decide true srcChecksum destChecksum false false ≠
      GateDecision.proceed := by
  simp [ChecksumGate.decide]

/-- Claim C6: a chunk size that is not a positive power of two makes the
engine boundary fail with `InvalidConfigurationError` before any task is
planned, whatever the discovered files are — in particular the failure does
not depend on the number of files. -/
theorem claim_C6 (chunkSize : Nat) (fileSizes : List Nat)
    (h : isPowerOfTwo chunkSize = false) :
    engineStart chunkSize fileSizes =
      Except.error EngineError.invalidConfigurationError := by
  simp [engineStart, h]

/-- Chunk size 65537 is rejected at the engine boundary, exercising
`claim_C6`. -/
theorem claim_C6_witness :
    engineStart 65537 [10, 0, 7] =
      Except.error EngineError.invalidConfigurationError :=
  claim_C6 65537 [10, 0, 7] (by decide)

/-- Claim C3: when every option flag is absent, the values bound by `main`
and passed onward are the documented defaults: overwrite false, checksum
true, chunk size 65536, concurrency 0, include pattern `*`, minimum size 0,
files-only false, preserve-attributes false. -/
theorem claim_C3 (c : CmdLine)
    (h1 : c.force = false) (h2 : c.noChecksum = false)
    (h3 : c.partSize = none) (h4 : c.threads = none)
    (h5 : c.includePattern = none) (h6 : c.minSize = none)
    (h7 : c.filesOnly = false) (h8 : c.preserve = false) :
    (mainLocals (applyDefaults c)).force = false ∧
    (mainLocals (applyDefaults c)).checksum = true ∧
    (mainLocals (applyDefaults c)).partSize = 65536 ∧
    (mainLocals (applyDefaults c)).nThreads = 0 ∧
    (mainLocals (applyDefaults c)).includePattern = "*" ∧
    (mainLocals (applyDefaults c)).minSize = 0 ∧
    (mainLocals (applyDefaults c)).filesOnly = false ∧
    (applyDefaults c).preserve = false := by
  simp [mainLocals, applyDefaults, h1, h2, h3, h4, h5, h6, h7, h8]

/-- A concrete flagless command line, exercising `claim_C3`. -/
theorem claim_C3_witness :
    (mainLocals (applyDefaults
      { src := "prod", dest := "preprod", srcPath := "/tmp/src",
        destPath := "/tmp/dest", threads := none, partSize := none,
        bufferSize := none, includePattern := none, minSize := none,
        force := false, silent := false, noChecksum := false,
        filesOnly := false, preserve := false, verbose := 0,
        conf := none })).force = false ∧
    (mainLocals (applyDefaults
      { src := "prod", dest := "preprod", srcPath := "/tmp/src",
        destPath := "/tmp/dest", threads := none, partSize := none,
        bufferSize := none, includePattern := none, minSize := none,
        force := false, silent := false, noChecksum := false,
        filesOnly := false, preserve := false, verbose := 0,
        conf := none })).checksum = true ∧
    (mainLocals (applyDefaults
      { src := "prod", dest := "preprod", srcPath := "/tmp/src",
        destPath := "/tmp/dest", threads := none, partSize := none,
        bufferSize := none, includePattern := none, minSize := none,
        force := false, silent := false, noChecksum := false,
        filesOnly := false, preserve := false, verbose := 0,
        conf := none })).partSize = 65536 ∧
    (mainLocals (applyDefaults
      { src := "prod", dest := "preprod", srcPath := "/tmp/src",
        destPath := "/tmp/dest", threads := none, partSize := none,
        bufferSize := none, includePattern := none, minSize := none,
        force := false, silent := false, noChecksum := false,
        filesOnly := false, preserve := false, verbose := 0,
        conf := none })).nThreads = 0 ∧
    (mainLocals (applyDefaults
      { src := "prod", dest := "preprod", srcPath := "/tmp/src",
        destPath := "/tmp/dest", threads := none, partSize := none,
        bufferSize := none, includePattern := none, minSize := none,
        force := false, silent := false, noChecksum := false,
        filesOnly := false, preserve := false, verbose := 0,
        conf := none })).includePattern = "*" ∧
    (mainLocals (applyDefaults
      { src := "prod", dest := "preprod", srcPath := "/tmp/src",
        destPath := "/tmp/dest", threads := none, partSize := none,
        bufferSize := none, includePattern := none, minSize := none,
        force := false, silent := false, noChecksum := false,
        filesOnly := false, preserve := false, verbose := 0,
        conf := none })).minSize = 0 ∧
    (mainLocals (applyDefaults
      { src := "prod", dest := "preprod", srcPath := "/tmp/src",
        destPath := "/tmp/dest", threads := none, partSize := none,
        bufferSize := none, includePattern := none, minSize := none,
        force := false, silent := false, noChecksum := false,
        filesOnly := false, preserve := false, verbose := 0,
        conf := none })).filesOnly = false ∧
    (applyDefaults
      { src := "prod", dest := "preprod", srcPath := "/tmp/src",
        destPath := "/tmp/dest", threads := none, partSize := none,
        bufferSize := none, includePattern := none, minSize := none,
        force := false, silent := false, noChecksum := false,
        filesOnly := false, preserve := false, verbose := 0,
        conf := none }).preserve = false :=
  claim_C3
    { src := "prod", dest := "preprod", srcPath := "/tmp/src",
      destPath := "/tmp/dest", threads := none, partSize := none,
      bufferSize := none, includePattern := none, minSize := none,
      force := false, silent := false, noChecksum := false,
      filesOnly := false, preserve := false, verbose := 0,
      conf := none } rfl rfl rfl rfl rfl rfl rfl rfl

/-- Claim C10: in the download branch the returned value is discarded, no
Job Status report is printed, and the process exits with status 0; a status
JSON is printed only in the copy and upload branches. -/
theorem claim_C10 (e : Engine) (a : Args) (tty : Bool) :
    (a.src ≠ "local" → a.dest = "local" →
      (mainRun e a tty).status = none ∧
      (mainRun e a tty).printed = [] ∧
      (mainRun e a tty).exitCode = 0 ∧
      ∃ d, (mainRun e a tty).invocation = some (Invocation.downloadCall d)) ∧
    (∀ rep : CopyReport,
      OutputLine.statusJson rep ∈ (mainRun e a tty).printed →
        (a.src ≠ "local" ∧ a.dest ≠ "local") ∨
        (a.src = "local" ∧ a.dest ≠ "local")) := by
  constructor
  · intro h1 h2
    simp [mainRun, h1, h2]
  · intro rep hrep
    by_cases h1 : a.src = "local" <;> by_cases h2 : a.dest = "local" <;>
      simp [mainRun, h1, h2] at hrep ⊢

/-- A concrete remote-to-local invocation, exercising `claim_C10`. -/
theorem claim_C10_witness :
    (mainRun defaultEngine
      { src := "prod", dest := "local", srcPath := "/a", destPath := "/b",
        threads := 0, partSize := 65536, bufferSize := 65536,
        includePattern := "*", minSize := 0, force := false, silent := false,
        noChecksum := false, filesOnly := false, preserve := false,
        verbose := 0, conf := none } true).status = none ∧
    (mainRun defaultEngine
      { src := "prod", dest := "local", srcPath := "/a", destPath := "/b",
        threads := 0, partSize := 65536, bufferSize := 65536,
        includePattern := "*", minSize := 0, force := false, silent := false,
        noChecksum := false, filesOnly := false, preserve := false,
        verbose := 0, conf := none } true).printed = [] ∧
    (mainRun defaultEngine
      { src := "prod", dest := "local", srcPath := "/a", destPath := "/b",
        threads := 0, partSize := 65536, bufferSize := 65536,
        includePattern := "*", minSize := 0, force := false, silent := false,
        noChecksum := false, filesOnly := false, preserve := false,
        verbose := 0, conf := none } true).exitCode = 0 ∧
    ∃ d, (mainRun defaultEngine
      { src := "prod", dest := "local", srcPath := "/a", destPath := "/b",
        threads := 0, partSize := 65536, bufferSize := 65536,
        includePattern := "*", minSize := 0, force := false, silent := false,
        noChecksum := false, filesOnly := false, preserve := false,
        verbose := 0, conf := none } true).invocation =
        some (Invocation.downloadCall d) :=
  (claim_C10 defaultEngine
    { src := "prod", dest := "local", srcPath := "/a", destPath := "/b",
      threads := 0, partSize := 65536, bufferSize := 65536,
      includePattern := "*", minSize := 0, force := false, silent := false,
      noChecksum := false, filesOnly := false, preserve := false,
      verbose := 0, conf := none } true).1 (by decide) rfl

/-- Claim C7: two runs that differ only in whether a progress sink is
supplied (any combination of the `--silent` flag and the tty bit) produce
the same status, exit code, printed output and clients, and the same
invocation up to its progress argument. -/
theorem claim_C7 (e : Engine) (a : Args) (t1 t2 s1 s2 : Bool) :
    (mainRun e { a with silent := s1 } t1).status =
      (mainRun e { a with silent := s2 } t2).status ∧
    (mainRun e { a with silent := s1 } t1).exitCode =
      (mainRun e { a with silent := s2 } t2).exitCode ∧
    (mainRun e { a with silent := s1 } t1).printed =
      (mainRun e { a with silent := s2 } t2).printed ∧
    (mainRun e { a with silent := s1 } t1).clients =
      (mainRun e { a with silent := s2 } t2).clients ∧
    Option.map Invocation.stripProgress
        (mainRun e { a with silent := s1 } t1).invocation =
      Option.map Invocation.stripProgress
        (mainRun e { a with silent := s2 } t2).invocation := by
  by_cases h1 : a.src = "local" <;> by_cases h2 : a.dest = "local" <;>
    simp [mainRun, mainLocals, Invocation.stripProgress, h1, h2]

/-- Claim C4, counterexample: two remote-to-remote invocations differing
only in `--min-size` produce the very same run — in particular the same
`client.copy` argument list — so the minimum size is not forwarded to
`copy`. -/
theorem claim_C4_counterexample :
    mainRun defaultEngine
      { src := "prod", dest := "preprod", srcPath := "/a", destPath := "/b",
        threads := 0, partSize := 65536, bufferSize := 65536,
        includePattern := "*", minSize := 0, force := false, silent := true,
        noChecksum := false, filesOnly := false, preserve := false,
        verbose := 0, conf := none } true =
    mainRun defaultEngine
      { src := "prod", dest := "preprod", srcPath := "/a", destPath := "/b",
        threads := 0, partSize := 65536, bufferSize := 65536,
        includePattern := "*", minSize := 5, force := false, silent := true,
        noChecksum := false, filesOnly := false, preserve := false,
        verbose := 0, conf := none } true ∧
    (0 : Nat) ≠ 5 := by
  constructor
  · rfl
  · decide

/-- Claim C4, amended: only `upload` receives all eight option values;
`copy` receives overwrite, checksum, chunk size, concurrency and preserve
(but neither include pattern, minimum size, nor files-only, whose values
cannot influence the run); `download` receives overwrite, chunk size,
concurrency and preserve (but neither checksum, include pattern, minimum
size, nor files-only, whose values cannot influence the run). -/
theorem claim_C4_amended (e : Engine) (a : Args) (tty : Bool) :
    (a.src = "local" → a.dest ≠ "local" →
      (mainRun e a tty).uploadArgs = some
        { destPath := (mainLocals a).destPath,
          srcPath := (mainLocals a).srcPath,
          overwrite := (mainLocals a).force,
          checksum := (mainLocals a).checksum,
          chunkSize := (mainLocals a).partSize,
          nThreads := (mainLocals a).nThreads,
          includePattern := (mainLocals a).includePattern,
          filesOnly := (mainLocals a).filesOnly,
          minSize := (mainLocals a).minSize,
          preserve := if a.preserve then true else false }) ∧
    (a.src ≠ "local" → a.dest ≠ "local" →
      (mainRun e a tty).copyArgs = some
        { srcPath := (mainLocals a).srcPath,
          destPath := (mainLocals a).destPath,
          overwrite := (mainLocals a).force,
          checksum := (mainLocals a).checksum,
          chunkSize := (mainLocals a).partSize,
          bufferSize := (mainLocals a).bufferSize,
          nThreads := (mainLocals a).nThreads,
          preserve := if a.preserve then true else false } ∧
      ∀ p m fo,
        mainRun e { a with includePattern := p, minSize := m, filesOnly := fo } tty =
          mainRun e a tty) ∧
    (a.src ≠ "local" → a.dest = "local" →
      (mainRun e a tty).downloadArgs = some
        { srcPath := (mainLocals a).srcPath,
          destPath := (mainLocals a).destPath,
          overwrite := (mainLocals a).force,
          chunkSize := (mainLocals a).partSize,
          nThreads := (mainLocals a).nThreads,
          preserve := if a.preserve then true else false } ∧
      ∀ p m fo ck,
        mainRun e
            { a with
              includePattern := p, minSize := m, filesOnly := fo,
              noChecksum := ck }
            tty =
          mainRun e a tty) := by
  refine ⟨?_, ?_, ?_⟩
  · intro h1 h2
    simp [mainRun, MainResult.uploadArgs, mainLocals, h1, h2]
  · intro h1 h2
    refine ⟨by simp [mainRun, MainResult.copyArgs, mainLocals, h1, h2], ?_⟩
    intro p m fo
    simp [mainRun, mainLocals, h1, h2]
  · intro h1 h2
    refine ⟨by simp [mainRun, MainResult.downloadArgs, mainLocals, h1, h2], ?_⟩
    intro p m fo ck
    simp [mainRun, mainLocals, h1, h2]

/-- A concrete local-to-remote invocation, exercising the upload conjunct of
`claim_C4_amended`. -/
theorem claim_C4_amended_witness :
    (mainRun defaultEngine
      { src := "local", dest := "preprod", srcPath := "/a", destPath := "/b",
        threads := 2, partSize := 1024, bufferSize := 65536,
        includePattern := "*.csv", minSize := 9, force := true,
        silent := true, noChecksum := true, filesOnly := true,
        preserve := true, verbose := 0, conf := none } true).uploadArgs = some
      { destPath := (mainLocals
          { src := "local", dest := "preprod", srcPath := "/a",
            destPath := "/b", threads := 2, partSize := 1024,
            bufferSize := 65536, includePattern := "*.csv", minSize := 9,
            force := true, silent := true, noChecksum := true,
            filesOnly := true, preserve := true, verbose := 0,
            conf := none }).destPath,
        srcPath := (mainLocals
          { src := "local", dest := "preprod", srcPath := "/a",
            destPath := "/b", threads := 2, partSize := 1024,
            bufferSize := 65536, includePattern := "*.csv", minSize := 9,
            force := true, silent := true, noChecksum := true,
            filesOnly := true, preserve := true, verbose := 0,
            conf := none }).srcPath,
        overwrite := (mainLocals
          { src := "local", dest := "preprod", srcPath := "/a",
            destPath := "/b", threads := 2, partSize := 1024,
            bufferSize := 65536, includePattern := "*.csv", minSize := 9,
            force := true, silent := true, noChecksum := true,
            filesOnly := true, preserve := true, verbose := 0,
            conf := none }).force,
        checksum := (mainLocals
          { src := "local", dest := "preprod", srcPath := "/a",
            destPath := "/b", threads := 2, partSize := 1024,
            bufferSize := 65536, includePattern := "*.csv", minSize := 9,
            force := true, silent := true, noChecksum := true,
            filesOnly := true, preserve := true, verbose := 0,
            conf := none }).checksum,
        chunkSize := (mainLocals
          { src := "local", dest := "preprod", srcPath := "/a",
            destPath := "/b", threads := 2, partSize := 1024,
            bufferSize := 65536, includePattern := "*.csv", minSize := 9,
            force := true, silent := true, noChecksum := true,
            filesOnly := true, preserve := true, verbose := 0,
            conf := none }).partSize,
        nThreads := (mainLocals
          { src := "local", dest := "preprod", srcPath := "/a",
            destPath := "/b", threads := 2, partSize := 1024,
            bufferSize := 65536, includePattern := "*.csv", minSize := 9,
            force := true, silent := true, noChecksum := true,
            filesOnly := true, preserve := true, verbose := 0,
            conf := none }).nThreads,
        includePattern := (mainLocals
          { src := "local", dest := "preprod", srcPath := "/a",
            destPath := "/b", threads := 2, partSize := 1024,
            bufferSize := 65536, includePattern := "*.csv", minSize := 9,
            force := true, silent := true, noChecksum := true,
            filesOnly := true, preserve := true, verbose := 0,
            conf := none }).includePattern,
        filesOnly := (mainLocals
          { src := "local", dest := "preprod", srcPath := "/a",
            destPath := "/b", threads := 2, partSize := 1024,
            bufferSize := 65536, includePattern := "*.csv", minSize := 9,
            force := true, silent := true, noChecksum := true,
            filesOnly := true, preserve := true, verbose := 0,
            conf := none }).filesOnly,
        minSize := (mainLocals
          { src := "local", dest := "preprod", srcPath := "/a",
            destPath := "/b", threads := 2, partSize := 1024,
            bufferSize := 65536, includePattern := "*.csv", minSize := 9,
            force := true, silent := true, noChecksum := true,
            filesOnly := true, preserve := true, verbose := 0,
            conf := none }).minSize,
        preserve := if true then true else false } :=
  (claim_C4_amended defaultEngine
    { src := "local", dest := "preprod", srcPath := "/a", destPath := "/b",
      threads := 2, partSize := 1024, bufferSize := 65536,
      includePattern := "*.csv", minSize := 9, force := true, silent := true,
      noChecksum := true, filesOnly := true, preserve := true, verbose := 0,
      conf := none } true).1 rfl (by decide)

/-! ### Chunk scheduler lemmas -/

/-- A positive power of two is positive. -/
theorem isPowerOfTwo_pos {C : Nat} (h : isPowerOfTwo C = true) : 0 < C := by
  cases C with
  | zero => simp [isPowerOfTwo, powCheck] at h
  | succ n => omega

/-- The scheduler never returns an empty chunk list. -/
theorem splitFuel_ne_nil (fuel C off n : Nat) : splitFuel fuel C off n ≠ [] := by
  cases fuel with
  | zero => simp [splitFuel]
  | succ fuel =>
    rw [splitFuel]
    split <;> simp

/-- With enough fuel, the chunk lengths sum to the file size. -/
theorem splitFuel_sum (C : Nat) (hC : 0 < C) :
    ∀ fuel off n, n ≤ fuel + C →
      ((splitFuel fuel C off n).map ChunkRange.length).sum = n := by
  intro fuel
  induction fuel with
  | zero =>
    intro off n hn
    simp [splitFuel]
  | succ fuel ih =>
    intro off n hn
    by_cases h : n ≤ C
    · rw [splitFuel, if_pos (Or.inl h)]
      simp
    · rw [splitFuel, if_neg (by omega)]
      simp only [List.map_cons, List.sum_cons]
      rw [ih (off + C) (n - C) (by omega)]
      show C + (n - C) = n
      omega

/-- With enough fuel, each chunk begins exactly where the previous one
ended. -/
theorem splitFuel_contiguous (C : Nat) (hC : 0 < C) :
    ∀ fuel off n, n ≤ fuel + C →
      contiguousFrom off (splitFuel fuel C off n) = true := by
  intro fuel
  induction fuel with
  | zero =>
    intro off n hn
    simp [splitFuel, contiguousFrom]
  | succ fuel ih =>
    intro off n hn
    by_cases h : n ≤ C
    · rw [splitFuel, if_pos (Or.inl h)]
      simp [contiguousFrom]
    · rw [splitFuel, if_neg (by omega)]
      simp only [contiguousFrom, Bool.and_eq_true, beq_iff_eq]
      exact ⟨trivial, ih (off + C) (n - C) (by omega)⟩

/-- With enough fuel, every chunk except the last has length exactly the
chunk size. -/
theorem splitFuel_dropLast (C : Nat) (hC : 0 < C) :
    ∀ fuel off n, n ≤ fuel + C →
      ∀ c ∈ (splitFuel fuel C off n).dropLast, c.length = C := by
  intro fuel
  induction fuel with
  | zero =>
    intro off n hn c hc
    simp [splitFuel] at hc
  | succ fuel ih =>
    intro off n hn c hc
    by_cases h : n ≤ C
    · rw [splitFuel, if_pos (Or.inl h)] at hc
      simp at hc
    · rw [splitFuel, if_neg (by omega),
        List.dropLast_cons_of_ne_nil (splitFuel_ne_nil _ _ _ _)] at hc
      rcases List.mem_cons.mp hc with h1 | h1
      · subst h1; rfl
      · exact ih (off + C) (n - C) (by omega) c h1

/-- With enough fuel, the number of chunks is one for an empty file and the
rounded-up quotient otherwise. -/
theorem splitFuel_length (C : Nat) (hC : 0 < C) :
    ∀ fuel off n, n ≤ fuel + C →
      (splitFuel fuel C off n).length = if n = 0 then 1 else (n + C - 1) / C := by
  intro fuel
  induction fuel with
  | zero =>
    intro off n hn
    by_cases h0 : n = 0
    · simp [splitFuel, h0]
    · have e : n + C - 1 = (n - 1) + C := by omega
      simp only [splitFuel, List.length_cons, List.length_nil, if_neg h0, e]
      rw [Nat.add_div_right _ hC, Nat.div_eq_of_lt (by omega)]
  | succ fuel ih =>
    intro off n hn
    by_cases h : n ≤ C
    · by_cases h0 : n = 0
      · simp [splitFuel, h0]
      · rw [splitFuel, if_pos (Or.inl h)]
        have e : n + C - 1 = (n - 1) + C := by omega
        simp only [List.length_cons, List.length_nil, if_neg h0, e]
        rw [Nat.add_div_right _ hC, Nat.div_eq_of_lt (by omega)]
    · rw [splitFuel, if_neg (by omega)]
      simp only [List.length_cons]
      rw [ih (off + C) (n - C) (by omega)]
      have hne : ¬(n - C = 0) := by omega
      rw [if_neg hne, if_neg (by omega : ¬ n = 0)]
      have e1 : n - C + C - 1 = (n - 1) := by omega
      have e2 : n + C - 1 = (n - 1) + C := by omega
      rw [e1, e2, Nat.add_div_right _ hC]

/-- Chunks below a contiguous list start at or after its starting offset. -/
theorem contiguousFrom_le (l : List ChunkRange) :
    ∀ off, contiguousFrom off l = true → ∀ c ∈ l, off ≤ c.offset := by
  induction l with
  | nil =>
    intro off _ c hc
    cases hc
  | cons a rest ih =>
    intro off h c hc
    simp only [contiguousFrom, Bool.and_eq_true, beq_iff_eq] at h
    obtain ⟨h1, h2⟩ := h
    cases hc with
    | head => omega
    | tail _ hc =>
      have := ih (off + a.length) h2 c hc
      omega

/-- A contiguous chunk list is ordered with pairwise non-overlapping
ranges. -/
theorem contiguousFrom_pairwise (l : List ChunkRange) :
    ∀ off, contiguousFrom off l = true →
      l.Pairwise (fun a b => a.offset + a.length ≤ b.offset) := by
  induction l with
  | nil =>
    intro off _
    exact List.Pairwise.nil
  | cons a rest ih =>
    intro off h
    simp only [contiguousFrom, Bool.and_eq_true, beq_iff_eq] at h
    obtain ⟨h1, h2⟩ := h
    refine List.Pairwise.cons ?_ (ih (off + a.length) h2)
    intro b hb
    have := contiguousFrom_le rest (off + a.length) h2 b hb
    omega

/-- A contiguous chunk list covers exactly the byte interval starting at its
offset whose length is the sum of its chunk lengths. -/
theorem contiguousFrom_mem_iff (l : List ChunkRange) :
    ∀ off, contiguousFrom off l = true →
      ∀ x, (∃ c ∈ l, c.offset ≤ x ∧ x < c.offset + c.length) ↔
        (off ≤ x ∧ x < off + (l.map ChunkRange.length).sum) := by
  induction l with
  | nil =>
    intro off _ x
    simp only [List.not_mem_nil, false_and, exists_false, List.map_nil,
      List.sum_nil, Nat.add_zero, false_iff, not_and, Nat.not_lt]
    intro hx
    exact hx
  | cons a rest ih =>
    intro off h x
    simp only [contiguousFrom, Bool.and_eq_true, beq_iff_eq] at h
    obtain ⟨h1, h2⟩ := h
    have hrest := ih (off + a.length) h2 x
    simp only [List.mem_cons, List.map_cons, List.sum_cons]
    constructor
    · rintro ⟨c, hc | hc, hx1, hx2⟩
      · subst hc
        omega
      · have := hrest.mp ⟨c, hc, hx1, hx2⟩
        omega
    · intro hx
      by_cases hcase : x < off + a.length
      · exact ⟨a, Or.inl rfl, by omega, by omega⟩
      · obtain ⟨c, hc, hx1, hx2⟩ := hrest.mpr (by omega)
        exact ⟨c, Or.inr hc, hx1, hx2⟩

/-- Claim C8, counterexample: the spec-modelled scheduler honours the
zero-length-file clause (one zero-length chunk), so at S = 0, C = 2 it does
not produce the rounded-up quotient 0 of chunks the claim also demands. -/
theorem claim_C8_counterexample :
    split 0 2 = [⟨0, 0⟩] ∧ (split 0 2).length ≠ (0 + 2 - 1) / 2 := by
  decide

/-- Claim C8, amended: for every size S and power-of-two chunk size C,
split(S,C) produces exactly ⌈S/C⌉ ordered ranges when S is positive and
exactly one zero-length range when S is zero; the lengths sum to S, the
ranges are contiguous from offset 0, pairwise non-overlapping and ordered,
their union is exactly the interval from 0 to S, and every range except the
last has length exactly C. -/
theorem claim_C8_amended (S C : Nat) (hC : isPowerOfTwo C = true) :
    (split S C).length = (if S = 0 then 1 else (S + C - 1) / C) ∧
    ((split S C).map ChunkRange.length).sum = S ∧
    contiguousFrom 0 (split S C) = true ∧
    (split S C).Pairwise (fun a b => a.offset + a.length ≤ b.offset) ∧
    (∀ x : Nat, x < S ↔
      ∃ c ∈ split S C, c.offset ≤ x ∧ x < c.offset + c.length) ∧
    (∀ c ∈ (split S C).dropLast, c.length = C) ∧
    (S = 0 → split S C = [⟨0, 0⟩]) := by
  have hpos : 0 < C := isPowerOfTwo_pos hC
  have hfuel : S ≤ S + C := by omega
  have hsum := splitFuel_sum C hpos S 0 S hfuel
  have hcont := splitFuel_contiguous C hpos S 0 S hfuel
  refine ⟨splitFuel_length C hpos S 0 S hfuel, hsum, hcont,
    contiguousFrom_pairwise _ 0 hcont, ?_, splitFuel_dropLast C hpos S 0 S hfuel, ?_⟩
  · intro x
    have := contiguousFrom_mem_iff (split S C) 0 hcont x
    rw [show ((split S C).map ChunkRange.length).sum = S from hsum] at this
    constructor
    · intro hx
      exact this.mpr ⟨Nat.zero_le x, by omega⟩
    · intro hx
      have := this.mp hx
      omega
  · intro h0
    subst h0
    cases C with
    | zero => omega
    | succ c => rfl

/-- Splitting a 10-byte file with chunk size 4, exercising
`claim_C8_amended`. -/
theorem claim_C8_amended_witness :
    isPowerOfTwo 4 = true ∧
    ((split 10 4).length = (if 10 = 0 then 1 else (10 + 4 - 1) / 4) ∧
    ((split 10 4).map ChunkRange.length).sum = 10 ∧
    contiguousFrom 0 (split 10 4) = true ∧
    (split 10 4).Pairwise (fun a b => a.offset + a.length ≤ b.offset) ∧
    (∀ x : Nat, x < 10 ↔
      ∃ c ∈ split 10 4, c.offset ≤ x ∧ x < c.offset + c.length) ∧
    (∀ c ∈ (split 10 4).dropLast, c.length = 4) ∧
    (10 = 0 → split 10 4 = [⟨0, 0⟩])) :=
  ⟨by decide, claim_C8_amended 10 4 (by decide)⟩

end Pydistcp
